import Mathlib

/-!
Verification of the particle-system core of `roguelike-shaders`
(`src/lib.rs`, `src/particle.rs`).

The Rust code drives a GPU double-buffered particle simulation.  We embed it
shallowly:

* GPU buffers of `f32` become `List ℚ` (idealised exact arithmetic);
* the per-emitter state (`Emitter` in `particle.rs`, `ParticleUpdate` plus the
  `particle_buffers` array in `lib.rs`) becomes explicit Lean structures;
* GL calls that only move data (binding a VAO, transform feedback into the
  write buffer, `draw_arrays`) become pure functions on that state;
* `js_sys::Math::random()` becomes an explicit stream `rand : Nat → ℚ` of
  samples, each assumed to lie in `[0, 1)` where a claim needs it;
* the simulation kernel itself (`particle-update.glsl`) is not part of the
  repository sources available here, so it is modelled from the spec
  (see `particleUpdate` below).
-/

namespace ParticleSim

/-- GPU `vec3` of `f32`, idealised as exact rationals. -/
abbrev Vec3 : Type := ℚ × ℚ × ℚ

/-- `EmitterOptions` from `particle.rs` (lines 43-57): immutable per-emitter
configuration. -/
structure EmitterOptions where
  num_particles : Nat
  gravity : Vec3
  origin : Vec3
  min_age : ℚ
  max_age : ℚ
  min_theta : ℚ
  max_theta : ℚ
  min_speed : ℚ
  max_speed : ℚ
deriving DecidableEq

/-- The exact rational value of the 32-bit float constant
`std::f32::consts::PI` (bit pattern `0x40490FDB`). -/
def f32PI : ℚ := 13176795 / 4194304

/-- `impl Default for EmitterOptions` from `particle.rs` (lines 59-73). -/
def defaultOptions : EmitterOptions :=
  { num_particles := 800
    gravity := (0, 0, 0)
    origin := (0, 0, 0)
    min_age := 3 / 10
    max_age := 9 / 10
    min_theta := -f32PI
    max_theta := f32PI
    min_speed := 1 / 2
    max_speed := 1 }

/-- One particle record: 8 floats per the fixed layout
(position 3, age 1, life 1, velocity 3). -/
structure Particle where
  pos : Vec3
  age : ℚ
  life : ℚ
  vel : Vec3
deriving DecidableEq

/-- Reading one 8-float record through the vertex-attribute layout set up in
`UpdateSystem::create_emitter` (`particle.rs` lines 202-243): `i_Position` is
3 floats at float offset 0, `i_Age` 1 float at offset 3, `i_Life` 1 float at
offset 4, `i_Velocity` 3 floats at offset 5. -/
def decodeParticle (r : List ℚ) : Particle :=
  { pos := (r.getD 0 0, r.getD 1 0, r.getD 2 0)
    age := r.getD 3 0
    life := r.getD 4 0
    vel := (r.getD 5 0, r.getD 6 0, r.getD 7 0) }

/-- Writing one record in the interleaved transform-feedback varying order
`["v_Position", "v_Age", "v_Life", "v_Velocity"]` declared in
`UpdateSystem::new` (`particle.rs` line 104) and `setup_particle_update`
(`lib.rs` line 193). -/
def encodeParticle (p : Particle) : List ℚ :=
  [p.pos.1, p.pos.2.1, p.pos.2.2, p.age, p.life, p.vel.1, p.vel.2.1, p.vel.2.2]

/-- The 8-float slice of a flat buffer holding record `i`
(stride 8 floats = 32 bytes). -/
def recordAt (d : List ℚ) (i : Nat) : List ℚ :=
  (d.drop (8 * i)).take 8

/-- Modelled from the spec: the simulation kernel source
(`particle-update.glsl`, referenced by `include_str!` in `particle.rs` line 93
and `lib.rs` line 182) is not among the repository sources available here, so
the per-particle step follows the spec contract of section 4.1: if
`age + delta > life` the particle respawns at the origin with `age = 0`,
`life` drawn uniformly from `[min_age, max_age]`, and
`velocity = s * direction(theta)` with `s` uniform in `[min_speed, max_speed]`
and `theta` uniform in `[min_theta, max_theta]`; otherwise
`velocity += gravity * delta`, `position += velocity * delta` (the updated
velocity), `age += delta`.  The three noise-texture samples feeding the
respawn are `r = (r1, r2, r3)`, each in `[0, 1]`, and the horizontal
direction function is abstracted as `dir`. -/
def particleUpdate (o : EmitterOptions) (dir : ℚ → Vec3) (r : ℚ × ℚ × ℚ)
    (delta : ℚ) (p : Particle) : Particle :=
  if p.age + delta > p.life then
    { pos := o.origin
      age := 0
      life := o.min_age + r.1 * (o.max_age - o.min_age)
      vel := (o.min_speed + r.2.2 * (o.max_speed - o.min_speed)) •
        dir (o.min_theta + r.2.1 * (o.max_theta - o.min_theta)) }
  else
    { pos := p.pos + delta • (p.vel + delta • o.gravity)
      age := p.age + delta
      life := p.life
      vel := p.vel + delta • o.gravity }

/-- The transform-feedback pass issued by `UpdateSystem::update`
(`particle.rs` lines 284-290) and `run_update` (`lib.rs` lines 351-353): draw
`n` point vertices; vertex `i` reads record `i` of the source buffer through
the attribute layout, runs the kernel with that invocation's noise samples,
and its varyings are captured interleaved, in order, into the output. -/
def transformPass (o : EmitterOptions) (dir : ℚ → Vec3)
    (samples : Nat → ℚ × ℚ × ℚ) (delta : ℚ) (src : List ℚ) : Nat → List ℚ
  | 0 => []
  | i + 1 =>
    transformPass o dir samples delta src i ++
      encodeParticle (particleUpdate o dir (samples i) delta
        (decodeParticle (recordAt src i)))

/-- `Emitter` from `particle.rs` (lines 34-41): per-emitter options, the
generation counter, and the two ping-pong buffers (we carry the buffer
contents rather than GL handles). -/
structure Emitter where
  options : EmitterOptions
  generation : Nat
  bufferData : Fin 2 → List ℚ

/-- `generate_initial_particle_data` from `particle.rs` (lines 403-423) and
`lib.rs` (lines 469-489): for each particle push position `(0,0,0)`, then
`age = life + 1` and `life = min_age + random() * (max_age - min_age)`, then
velocity `(0,0,0)`.  The `Math.random()` samples are supplied as the stream
`rand`; iteration `i` consumes `rand i`. -/
def generate_initial_particle_data (min_age max_age : ℚ) (rand : Nat → ℚ) :
    Nat → List ℚ
  | 0 => []
  | n + 1 =>
    generate_initial_particle_data min_age max_age rand n ++
      [0, 0, 0, (min_age + rand n * (max_age - min_age)) + 1,
        min_age + rand n * (max_age - min_age), 0, 0, 0]

/-- `UpdateSystem::create_emitter` from `particle.rs` (lines 164-255): create
the two buffers, upload the same `particle_init_data` vector into both, set up
the two VAOs, and return an `Emitter` with `generation = 0`. -/
def create_emitter (options : EmitterOptions) (rand : Nat → ℚ) : Emitter :=
  { options := options
    generation := 0
    bufferData := fun _ =>
      generate_initial_particle_data options.min_age options.max_age rand
        options.num_particles }

/-- `UpdateSystem::update` from `particle.rs` (lines 257-297): read from
`buffers[generation % 2]` (via its VAO), capture the feedback pass into
`buffers[(generation + 1) % 2]`, then increment `generation`.  The kernel body
itself is the spec-modelled `particleUpdate`; `noise g i` supplies the noise
samples of particle `i` in the invocation at generation `g`. -/
def updateEmitter (dir : ℚ → Vec3) (noise : Nat → Nat → ℚ × ℚ × ℚ)
    (e : Emitter) (delta : ℚ) : Emitter :=
  { options := e.options
    generation := e.generation + 1
    bufferData := fun j =>
      if j = (⟨(e.generation + 1) % 2, by omega⟩ : Fin 2) then
        transformPass e.options dir (noise e.generation) delta
          (e.bufferData ⟨e.generation % 2, by omega⟩) e.options.num_particles
      else e.bufferData j }

/-- A point-primitive draw call: which buffer is bound as the vertex source,
and the `draw_arrays` range. -/
structure DrawCall where
  bufferIndex : Nat
  first : Nat
  count : Nat

/-- `Render::render` from `particle.rs` (lines 326-390): binds
`emitter.buffers[(emitter.generation + 1) % 2]` as the vertex source
(line 346) and draws `num_particles` points starting at 0. -/
def renderEmitter (e : Emitter) : DrawCall :=
  { bufferIndex := (e.generation + 1) % 2
    first := 0
    count := e.options.num_particles }

/-- The buffer index bound by the inline render path in `display_model`
(`lib.rs` lines 102-105): `particle_buffers[update.generation % 2]`. -/
def displayRenderIndex (generation : Nat) : Nat := generation % 2

/-- `ParticleUpdate` from `lib.rs` (lines 155-172): the per-context update
state carried by `display_model` (only the fields the pure data flow needs:
the particle count and the generation counter). -/
structure ParticleUpdate where
  num_particles : Nat
  generation : Nat

/-- The mutable state threaded through the `display_model` frame closure
(`lib.rs` lines 63-149): the update state, the shared `particle_buffers`
pair, and `prev_time`. -/
structure FrameState where
  update : ParticleUpdate
  buffers : Fin 2 → List ℚ
  prevTime : ℚ

/-- The emitter configuration hard-coded by the `lib.rs` path: the uniforms
set in `run_update` (lines 328-333: gravity `(0,-2,0)`, origin `(0,0,0)`,
theta bounds `±PI`, speed bounds `[0.5, 1]`) together with the life bounds
`[0.3, 0.9]` used for the initial data (line 44). -/
def libUpdateOptions (n : Nat) : EmitterOptions :=
  { num_particles := n
    gravity := (0, -2, 0)
    origin := (0, 0, 0)
    min_age := 3 / 10
    max_age := 9 / 10
    min_theta := -f32PI
    max_theta := f32PI
    min_speed := 1 / 2
    max_speed := 1 }

/-- `run_update` from `lib.rs` (lines 316-360): same ping-pong data flow as
`UpdateSystem::update` — read `buffers[generation % 2]`, capture the feedback
pass into `buffers[(generation + 1) % 2]`, increment `generation`. -/
def run_update (dir : ℚ → Vec3) (noise : Nat → Nat → ℚ × ℚ × ℚ)
    (s : FrameState) (delta : ℚ) : FrameState :=
  { s with
    update := { s.update with generation := s.update.generation + 1 }
    buffers := fun j =>
      if j = (⟨(s.update.generation + 1) % 2, by omega⟩ : Fin 2) then
        transformPass (libUpdateOptions s.update.num_particles) dir
          (noise s.update.generation) delta
          (s.buffers ⟨s.update.generation % 2, by omega⟩) s.update.num_particles
      else s.buffers j }

/-- The body of the per-frame closure in `display_model` (`lib.rs` lines
68-148): compute `time_delta = current_time - prev_time`, clear, call
`run_update` with that delta (unconditionally — there is no threshold test),
draw `particle_buffers[update.generation % 2]`, and store `prev_time`.
The camera matrices only feed shader uniforms and are external to the data
flow modelled here. -/
def frame (dir : ℚ → Vec3) (noise : Nat → Nat → ℚ × ℚ × ℚ)
    (s : FrameState) (currentTime : ℚ) : FrameState × DrawCall :=
  let time_delta := currentTime - s.prevTime
  let s1 := run_update dir noise s time_delta
  ({ s1 with prevTime := currentTime },
    { bufferIndex := displayRenderIndex s1.update.generation
      first := 0
      count := s1.update.num_particles })

/-- `get_uniform` from `lib.rs` (lines 442-450): look a named uniform up in
the linked program; on failure return
`format!("Could not get uniform location for {:?}", name)`, which wraps the
name in double quotes.  The program's uniform table is abstracted as
`lookup`. -/
def get_uniform (lookup : String → Option Nat) (name : String) :
    Except String Nat :=
  match lookup name with
  | some loc => Except.ok loc
  | none =>
    Except.error ("Could not get uniform location for \"" ++ name ++ "\"")

/-- The chain of `get_uniform(..)?` calls performed during construction
(first failure short-circuits, as the Rust `?` operator does). -/
def resolveUniforms (lookup : String → Option Nat) :
    List String → Except String (List Nat)
  | [] => Except.ok []
  | n :: rest =>
    match get_uniform lookup n with
    | Except.error e => Except.error e
    | Except.ok loc =>
      match resolveUniforms lookup rest with
      | Except.error e => Except.error e
      | Except.ok locs => Except.ok (loc :: locs)

/-- The uniforms resolved by `UpdateSystem::new`, in source order
(`particle.rs` lines 151-158). -/
def updateSystemUniformNames : List String :=
  ["u_TimeDelta", "u_RgNoise", "u_Gravity", "u_Origin",
    "u_MinTheta", "u_MaxTheta", "u_MinSpeed", "u_MaxSpeed"]

/-- The uniforms resolved by `Render::new`, in source order
(`particle.rs` lines 319-320). -/
def renderUniformNames : List String := ["u_Projection", "u_View"]

/-- The uniform-resolution step of `UpdateSystem::new` (`particle.rs` lines
143-162), the only construction step a missing named parameter can fail. -/
def updateSystemNew (lookup : String → Option Nat) :
    Except String (List Nat) :=
  resolveUniforms lookup updateSystemUniformNames

/-- The uniform-resolution step of `Render::new` (`particle.rs` lines
301-324). -/
def renderNew (lookup : String → Option Nat) : Except String (List Nat) :=
  resolveUniforms lookup renderUniformNames

/-- Vertex-attribute layout installed per buffer by
`UpdateSystem::create_emitter` (`particle.rs` lines 202-243), as
`(attribute name, component count, byte offset)` with the common stride
below. -/
def updateVertexLayout : List (String × Nat × Nat) :=
  [("i_Position", 3, 0), ("i_Age", 1, 3 * 4), ("i_Life", 1, 4 * 4),
    ("i_Velocity", 3, 5 * 4)]

/-- Stride used by `UpdateSystem::create_emitter`
(`particle.rs` lines 202-203): `(3 + 1 + 1 + 3) * size_of::<f32>()`. -/
def updateStride : Nat := (3 + 1 + 1 + 3) * 4

/-- Vertex-attribute layout installed by `Render::render`
(`particle.rs` lines 348-379). -/
def renderVertexLayout : List (String × Nat × Nat) :=
  [("i_Position", 3, 0), ("i_Age", 1, 3 * 4), ("i_Life", 1, 4 * 4)]

/-- Stride used by `Render::render` (`particle.rs` lines 348-349). -/
def renderStride : Nat := (3 + 1 + 1 + 3) * 4

/-- Vertex-attribute layout installed by `setup_particle_update`
(`lib.rs` lines 214-255). -/
def libUpdateVertexLayout : List (String × Nat × Nat) :=
  [("i_Position", 3, 0), ("i_Age", 1, 3 * 4), ("i_Life", 1, 4 * 4),
    ("i_Velocity", 3, 5 * 4)]

/-- Vertex-attribute layout installed by the inline render path of
`display_model` (`lib.rs` lines 107-141). -/
def libRenderVertexLayout : List (String × Nat × Nat) :=
  [("i_Position", 3, 0), ("i_Age", 1, 3 * 4), ("i_Life", 1, 4 * 4)]

/-- Transform-feedback varyings declared by `UpdateSystem::new`
(`particle.rs` line 104), captured `INTERLEAVED_ATTRIBS`. -/
def feedbackVaryings : List String :=
  ["v_Position", "v_Age", "v_Life", "v_Velocity"]

/-- Transform-feedback varyings declared by `setup_particle_update`
(`lib.rs` line 193), captured `INTERLEAVED_ATTRIBS`. -/
def libFeedbackVaryings : List String :=
  ["v_Position", "v_Age", "v_Life", "v_Velocity"]

/-! Shared concrete inputs used by witnesses and counterexamples. -/

/-- A small concrete emitter configuration used in witnesses. -/
def oEx : EmitterOptions :=
  { num_particles := 1
    gravity := (0, -2, 0)
    origin := (0, 0, 0)
    min_age := 1
    max_age := 2
    min_theta := 0
    max_theta := 1
    min_speed := 1
    max_speed := 2 }

/-- A concrete stand-in for the random stream in witnesses. -/
def randEx : Nat → ℚ := fun _ => 1 / 2

/-- A concrete stand-in for the direction function in witnesses. -/
def dirEx : ℚ → Vec3 := fun _ => (1, 0, 0)

/-- A concrete stand-in for the per-invocation noise samples in witnesses. -/
def noiseEx : Nat → Nat → ℚ × ℚ × ℚ := fun _ _ => (1 / 2, 1 / 2, 1 / 2)

/-- A concrete frame state used in counterexamples. -/
def fsEx : FrameState :=
  { update := { num_particles := 0, generation := 0 }
    buffers := fun _ => []
    prevTime := 0 }

/-! ## Helper lemmas -/

theorem gipd_length (a b : ℚ) (rand : Nat → ℚ) :
    ∀ n, (generate_initial_particle_data a b rand n).length = 8 * n := by
  intro n
  induction n with
  | zero => rfl
  | succ n ih =>
    simp only [generate_initial_particle_data, List.length_append, ih,
      List.length_cons, List.length_nil]
    omega

theorem gipd_recordAt (a b : ℚ) (rand : Nat → ℚ) :
    ∀ n i, i < n →
      recordAt (generate_initial_particle_data a b rand n) i =
        [0, 0, 0, (a + rand i * (b - a)) + 1, a + rand i * (b - a), 0, 0, 0] := by
  intro n
  induction n with
  | zero => intro i hi; omega
  | succ n ih =>
    intro i hi
    rcases Nat.lt_succ_iff_lt_or_eq.mp hi with hlt | heq
    · have hlen := gipd_length a b rand n
      have hle : 8 * i + 8 ≤ 8 * n := by omega
      rw [recordAt, generate_initial_particle_data,
        List.drop_append_eq_append_drop, List.take_append_eq_append_take]
      have h1 : 8 * i - (generate_initial_particle_data a b rand n).length = 0 := by
        omega
      have h2 :
          8 - ((generate_initial_particle_data a b rand n).drop (8 * i)).length = 0 := by
        rw [List.length_drop, hlen]; omega
      rw [h1, h2, List.take_zero, List.append_nil]
      have := ih i hlt
      rw [recordAt] at this
      exact this
    · subst heq
      have hlen := gipd_length a b rand i
      rw [recordAt, generate_initial_particle_data,
        List.drop_append_eq_append_drop, hlen]
      have h1 : 8 * i - 8 * i = 0 := by omega
      have h2 : (generate_initial_particle_data a b rand i).drop (8 * i) = [] := by
        apply List.eq_nil_of_length_eq_zero
        rw [List.length_drop, hlen]; omega
      rw [h1, h2, List.nil_append, List.drop_zero]
      rfl

theorem resolveUniforms_missing (lookup : String → Option Nat) :
    ∀ (names : List String) (u : String), u ∈ names → lookup u = none →
      (∀ v ∈ names, v ≠ u → lookup v ≠ none) →
      resolveUniforms lookup names =
        Except.error ("Could not get uniform location for \"" ++ u ++ "\"") := by
  intro names
  induction names with
  | nil => intro u hu; exact absurd hu (List.not_mem_nil u)
  | cons n rest ih =>
    intro u hu hnone hothers
    by_cases hn : n = u
    · subst hn
      rw [resolveUniforms, get_uniform, hnone]
    · rcases List.mem_cons.mp hu with heq | hrest
      · exact absurd heq.symm hn
      · have hn2 : lookup n ≠ none :=
          hothers n (List.mem_cons_self n rest) hn
        rcases Option.ne_none_iff_exists.mp hn2 with ⟨loc, hloc⟩
        rw [resolveUniforms, get_uniform, ← hloc]
        rw [ih u hrest hnone (fun v hv hvu => hothers v (List.mem_cons_of_mem n hv) hvu)]

/-! ## Claims -/

/-- C1: the claim says `Render::render` binds the buffer with index
`generation % 2` (the current generation's buffer).  The code does not: at a
freshly created emitter (`generation = 0`), `Render::render`
(`particle.rs` line 346) binds buffer index `(0 + 1) % 2 = 1`, while the
current buffer is `0 % 2 = 0` — which is exactly what the repository's own
wired-up render path in `display_model` (`lib.rs` line 104) binds. -/
theorem render_stage_binds_opposite_parity :
    (renderEmitter (create_emitter oEx randEx)).bufferIndex = 1 ∧
    (create_emitter oEx randEx).generation % 2 = 0 ∧
    displayRenderIndex (create_emitter oEx randEx).generation = 0 :=
  ⟨rfl, rfl, rfl⟩

/-- C3: `generation` is 0 immediately after `create_emitter`, and each
completed update (`UpdateSystem::update`, and the `run_update` path of
`lib.rs` alike) increments it by exactly 1.  These are the only operations of
the core that touch the counter (`Render::render` takes the emitter by shared
reference and cannot mutate it), so nothing decreases or resets it. -/
theorem generation_starts_zero_and_increments :
    (∀ (o : EmitterOptions) (rand : Nat → ℚ),
      (create_emitter o rand).generation = 0) ∧
    (∀ (dir : ℚ → Vec3) (noise : Nat → Nat → ℚ × ℚ × ℚ) (e : Emitter)
      (delta : ℚ),
      (updateEmitter dir noise e delta).generation = e.generation + 1) ∧
    (∀ (dir : ℚ → Vec3) (noise : Nat → Nat → ℚ × ℚ × ℚ) (s : FrameState)
      (delta : ℚ),
      (run_update dir noise s delta).update.generation =
        s.update.generation + 1) :=
  ⟨fun _ _ => rfl, fun _ _ _ _ => rfl, fun _ _ _ _ => rfl⟩

/-- C10: `create_emitter` uploads the single shared `particle_init_data`
vector into both buffers, so immediately after creation the two buffers are
identical, record for record. -/
theorem create_seeds_buffers_identically (o : EmitterOptions)
    (rand : Nat → ℚ) :
    (create_emitter o rand).bufferData 0 = (create_emitter o rand).bufferData 1 ∧
    ∀ i : Nat, recordAt ((create_emitter o rand).bufferData 0) i =
      recordAt ((create_emitter o rand).bufferData 1) i :=
  ⟨rfl, fun _ => rfl⟩

/-- C7 counterexample: the claim says a frame whose computed time delta
exceeds 150 ms skips the Simulation Stage.  The frame closure of
`display_model` contains no such test: with `prev_time = 0` and
`current_time = 0.2` the delta is `0.2 > 0.15`, yet the frame still runs
`run_update`, incrementing the generation. -/
theorem frame_updates_despite_large_delta :
    (1 : ℚ) / 5 - fsEx.prevTime > 3 / 20 ∧
    (frame dirEx noiseEx fsEx (1 / 5)).1.update.generation ≠
      fsEx.update.generation := by
  constructor
  · norm_num [fsEx]
  · intro h
    simp [frame, run_update, fsEx] at h

/-- C7 amended: the frame orchestrator invokes the Simulation Stage
unconditionally every frame, whatever the computed delta (there is no 150 ms
stability threshold in the code), so `update` runs with the raw delta each
frame. -/
theorem frame_always_invokes_update (dir : ℚ → Vec3)
    (noise : Nat → Nat → ℚ × ℚ × ℚ) (s : FrameState) (currentTime : ℚ) :
    (frame dir noise s currentTime).1.update.generation =
      s.update.generation + 1 := rfl

/-- C8: both stages use the same record layout — stride 32 bytes = 8 floats,
`i_Position` (3 floats) at float offset 0, `i_Age` at 3, `i_Life` at 4,
`i_Velocity` (3 floats) at 5 — in all four attribute-binding sites
(`create_emitter` and `Render::render` in `particle.rs`,
`setup_particle_update` and the inline render in `lib.rs`); the
transform-feedback varyings are declared interleaved in exactly the order
`v_Position, v_Age, v_Life, v_Velocity` in both update paths; and capturing
a record in that varying order and re-reading it through the input layout is
the identity, so buffer reuse across passes is coherent. -/
theorem attribute_layout_consistent :
    updateStride = 8 * 4 ∧ renderStride = updateStride ∧
    updateVertexLayout =
      [("i_Position", 3, 0 * 4), ("i_Age", 1, 3 * 4), ("i_Life", 1, 4 * 4),
        ("i_Velocity", 3, 5 * 4)] ∧
    renderVertexLayout = updateVertexLayout.take 3 ∧
    libUpdateVertexLayout = updateVertexLayout ∧
    libRenderVertexLayout = renderVertexLayout ∧
    feedbackVaryings = ["v_Position", "v_Age", "v_Life", "v_Velocity"] ∧
    libFeedbackVaryings = feedbackVaryings ∧
    (∀ p : Particle, (encodeParticle p).length = 8) ∧
    (∀ p : Particle, decodeParticle (encodeParticle p) = p) :=
  ⟨rfl, rfl, rfl, rfl, rfl, rfl, rfl, rfl, fun _ => rfl, fun _ => rfl⟩

/-- C4: `update` captures its output into the buffer with index
`(generation + 1) % 2` only; any buffer whose index differs from the write
index — in particular the source buffer `generation % 2` — is left exactly as
it was. -/
theorem update_writes_only_write_buffer (dir : ℚ → Vec3)
    (noise : Nat → Nat → ℚ × ℚ × ℚ) (e : Emitter) (delta : ℚ) (j : Fin 2)
    (hj : (j : Nat) ≠ (e.generation + 1) % 2) :
    (updateEmitter dir noise e delta).bufferData j = e.bufferData j ∧
    (updateEmitter dir noise e delta).bufferData
        ⟨(e.generation + 1) % 2, by omega⟩ =
      transformPass e.options dir (noise e.generation) delta
        (e.bufferData ⟨e.generation % 2, by omega⟩) e.options.num_particles := by
  constructor
  · simp only [updateEmitter]
    rw [if_neg (fun h => hj (congrArg Fin.val h))]
  · simp only [updateEmitter]
    rw [if_pos trivial]

/-- C4 witness at a freshly created concrete emitter: buffer 0 (the read
buffer at generation 0) is untouched and buffer 1 receives the pass
output. -/
theorem update_writes_only_write_buffer_witness :
    (updateEmitter dirEx noiseEx (create_emitter oEx randEx) 1).bufferData 0 =
      (create_emitter oEx randEx).bufferData 0 ∧
    (updateEmitter dirEx noiseEx (create_emitter oEx randEx) 1).bufferData 1 =
      transformPass oEx dirEx (noiseEx 0) 1
        ((create_emitter oEx randEx).bufferData 0) 1 :=
  update_writes_only_write_buffer dirEx noiseEx (create_emitter oEx randEx) 1 0
    (by decide)

/-- C6 counterexample: the claim says `update` with `delta = 0` changes no
particle.  But a particle whose age already exceeds its life — exactly the
state `create` seeds (`age = life + 1`) — satisfies `age + 0 > life` and is
respawned, so its age changes (here from `5/2` to `0`). -/
theorem update_zero_delta_respawns_expired_particle :
    particleUpdate oEx dirEx (1 / 2, 1 / 2, 1 / 2) 0
        { pos := (0, 0, 0), age := 5 / 2, life := 3 / 2, vel := (0, 0, 0) } ≠
      { pos := (0, 0, 0), age := 5 / 2, life := 3 / 2, vel := (0, 0, 0) } := by
  intro h
  have h2 := congrArg Particle.age h
  simp only [particleUpdate] at h2
  rw [apply_ite Particle.age, if_pos (by norm_num)] at h2
  norm_num at h2

/-- C6 amended: the per-particle step with `delta = 0` is the identity on
every particle that is not already expired, i.e. whenever `age ≤ life`
(`age + 0 > life` fails, so the integration branch runs and adds zero
everywhere); expired particles are respawned instead. -/
theorem update_zero_delta_identity_on_live_particles (o : EmitterOptions)
    (dir : ℚ → Vec3) (r : ℚ × ℚ × ℚ) (p : Particle) (h : p.age ≤ p.life) :
    particleUpdate o dir r 0 p = p := by
  cases p with
  | mk pos age life vel =>
    simp only [particleUpdate]
    rw [if_neg (not_lt.mpr (by simpa using h))]
    simp

/-- C6 witness: a live particle (`age = 1 ≤ life = 3/2`) is unchanged by a
zero-delta step. -/
theorem update_zero_delta_identity_witness :
    particleUpdate oEx dirEx (1 / 2, 1 / 2, 1 / 2) 0
        { pos := (0, 0, 0), age := 1, life := 3 / 2, vel := (0, 0, 0) } =
      { pos := (0, 0, 0), age := 1, life := 3 / 2, vel := (0, 0, 0) } :=
  update_zero_delta_identity_on_live_particles oEx dirEx (1 / 2, 1 / 2, 1 / 2)
    _ (by norm_num)

/-- C2: the per-particle step (spec-modelled kernel, the shader source not
being among the available repository files): if `age + delta > life` the
particle respawns with `position = origin`, `age = 0`, `life` the uniform
sample `min_age + r1 * (max_age - min_age)` — which lies in
`[min_age, max_age]` — and `velocity = s • direction(theta)` where the
sampled speed `s` lies in `[min_speed, max_speed]` and the sampled angle
`theta` in `[min_theta, max_theta]`; otherwise
`velocity_after = velocity_before + delta • gravity`,
`position_after = position_before + delta • velocity_after`, and
`age_after = age_before + delta` with `life` unchanged. -/
theorem particle_step_follows_spec_kernel (o : EmitterOptions)
    (dir : ℚ → Vec3) (r1 r2 r3 delta : ℚ) (p : Particle)
    (h1 : 0 ≤ r1) (h2 : r1 ≤ 1) (h3 : 0 ≤ r2) (h4 : r2 ≤ 1)
    (h5 : 0 ≤ r3) (h6 : r3 ≤ 1)
    (ha : o.min_age ≤ o.max_age) (ht : o.min_theta ≤ o.max_theta)
    (hs : o.min_speed ≤ o.max_speed) :
    particleUpdate o dir (r1, r2, r3) delta p =
      (if p.age + delta > p.life then
        { pos := o.origin, age := 0,
          life := o.min_age + r1 * (o.max_age - o.min_age),
          vel := (o.min_speed + r3 * (o.max_speed - o.min_speed)) •
            dir (o.min_theta + r2 * (o.max_theta - o.min_theta)) }
      else
        { pos := p.pos + delta • (p.vel + delta • o.gravity),
          age := p.age + delta, life := p.life,
          vel := p.vel + delta • o.gravity }) ∧
    o.min_age ≤ o.min_age + r1 * (o.max_age - o.min_age) ∧
    o.min_age + r1 * (o.max_age - o.min_age) ≤ o.max_age ∧
    o.min_theta ≤ o.min_theta + r2 * (o.max_theta - o.min_theta) ∧
    o.min_theta + r2 * (o.max_theta - o.min_theta) ≤ o.max_theta ∧
    o.min_speed ≤ o.min_speed + r3 * (o.max_speed - o.min_speed) ∧
    o.min_speed + r3 * (o.max_speed - o.min_speed) ≤ o.max_speed := by
  refine ⟨rfl, ?_, ?_, ?_, ?_, ?_, ?_⟩
  · nlinarith [mul_nonneg h1 (sub_nonneg.mpr ha)]
  · nlinarith [mul_le_of_le_one_left (sub_nonneg.mpr ha) h2]
  · nlinarith [mul_nonneg h3 (sub_nonneg.mpr ht)]
  · nlinarith [mul_le_of_le_one_left (sub_nonneg.mpr ht) h4]
  · nlinarith [mul_nonneg h5 (sub_nonneg.mpr hs)]
  · nlinarith [mul_le_of_le_one_left (sub_nonneg.mpr hs) h6]

/-- C2 witness, at an expired concrete particle (`5/2 + 1 > 3/2`) with
mid-range noise samples. -/
theorem particle_step_follows_spec_kernel_witness :
    particleUpdate oEx dirEx (1 / 2, 1 / 2, 1 / 2) 1
        { pos := (0, 0, 0), age := 5 / 2, life := 3 / 2, vel := (0, 0, 0) } =
      (if (5 / 2 : ℚ) + 1 > 3 / 2 then
        { pos := oEx.origin, age := 0,
          life := oEx.min_age + 1 / 2 * (oEx.max_age - oEx.min_age),
          vel := (oEx.min_speed + 1 / 2 * (oEx.max_speed - oEx.min_speed)) •
            dirEx (oEx.min_theta + 1 / 2 * (oEx.max_theta - oEx.min_theta)) }
      else
        { pos := (0, 0, 0) + (1 : ℚ) • ((0, 0, 0) + (1 : ℚ) • oEx.gravity),
          age := 5 / 2 + 1, life := 3 / 2,
          vel := ((0 : ℚ), (0 : ℚ), (0 : ℚ)) + (1 : ℚ) • oEx.gravity }) ∧
    oEx.min_age ≤ oEx.min_age + 1 / 2 * (oEx.max_age - oEx.min_age) ∧
    oEx.min_age + 1 / 2 * (oEx.max_age - oEx.min_age) ≤ oEx.max_age ∧
    oEx.min_theta ≤ oEx.min_theta + 1 / 2 * (oEx.max_theta - oEx.min_theta) ∧
    oEx.min_theta + 1 / 2 * (oEx.max_theta - oEx.min_theta) ≤ oEx.max_theta ∧
    oEx.min_speed ≤ oEx.min_speed + 1 / 2 * (oEx.max_speed - oEx.min_speed) ∧
    oEx.min_speed + 1 / 2 * (oEx.max_speed - oEx.min_speed) ≤ oEx.max_speed :=
  particle_step_follows_spec_kernel oEx dirEx (1 / 2) (1 / 2) (1 / 2) 1
    { pos := (0, 0, 0), age := 5 / 2, life := 3 / 2, vel := (0, 0, 0) }
    (by norm_num) (by norm_num) (by norm_num) (by norm_num) (by norm_num)
    (by norm_num) (by norm_num [oEx]) (by norm_num [oEx]) (by norm_num [oEx])

/-- C5: immediately after `create_emitter`, each of the two buffers holds
`num_particles` records (8 floats each), and each record decodes to
`position = (0,0,0)`, `velocity = (0,0,0)`, `age = life + 1`, with the
sampled `life` in `[min_age, max_age]` (given a well-ordered configuration
and `Math.random()` samples in `[0,1)`); since `age = life + 1 > life`, the
particle is classified expired on the first simulation step for any
`delta ≥ 0`. -/
theorem create_seeds_both_buffers_expired (o : EmitterOptions)
    (rand : Nat → ℚ) (hma : o.min_age ≤ o.max_age)
    (hr0 : ∀ i, 0 ≤ rand i) (hr1 : ∀ i, rand i < 1)
    (b : Fin 2) (i : Nat) (hi : i < o.num_particles) (delta : ℚ)
    (hd : 0 ≤ delta) :
    ((create_emitter o rand).bufferData b).length = 8 * o.num_particles ∧
    decodeParticle (recordAt ((create_emitter o rand).bufferData b) i) =
      { pos := (0, 0, 0),
        age := (o.min_age + rand i * (o.max_age - o.min_age)) + 1,
        life := o.min_age + rand i * (o.max_age - o.min_age),
        vel := (0, 0, 0) } ∧
    o.min_age ≤ o.min_age + rand i * (o.max_age - o.min_age) ∧
    o.min_age + rand i * (o.max_age - o.min_age) ≤ o.max_age ∧
    ((o.min_age + rand i * (o.max_age - o.min_age)) + 1) + delta >
      o.min_age + rand i * (o.max_age - o.min_age) := by
  refine ⟨gipd_length _ _ _ _, ?_, ?_, ?_, ?_⟩
  · have hb : (create_emitter o rand).bufferData b =
        generate_initial_particle_data o.min_age o.max_age rand
          o.num_particles := rfl
    rw [hb, gipd_recordAt _ _ _ _ i hi]
    rfl
  · nlinarith [mul_nonneg (hr0 i) (sub_nonneg.mpr hma)]
  · nlinarith [mul_le_of_le_one_left (sub_nonneg.mpr hma) (le_of_lt (hr1 i))]
  · linarith

/-- C5 witness at the concrete emitter: one record, sampled life `3/2`. -/
theorem create_seeds_both_buffers_expired_witness :
    ((create_emitter oEx randEx).bufferData 0).length = 8 * oEx.num_particles ∧
    decodeParticle (recordAt ((create_emitter oEx randEx).bufferData 0) 0) =
      { pos := (0, 0, 0),
        age := (oEx.min_age + randEx 0 * (oEx.max_age - oEx.min_age)) + 1,
        life := oEx.min_age + randEx 0 * (oEx.max_age - oEx.min_age),
        vel := (0, 0, 0) } ∧
    oEx.min_age ≤ oEx.min_age + randEx 0 * (oEx.max_age - oEx.min_age) ∧
    oEx.min_age + randEx 0 * (oEx.max_age - oEx.min_age) ≤ oEx.max_age ∧
    ((oEx.min_age + randEx 0 * (oEx.max_age - oEx.min_age)) + 1) + 0 >
      oEx.min_age + randEx 0 * (oEx.max_age - oEx.min_age) :=
  create_seeds_both_buffers_expired oEx randEx (by norm_num [oEx])
    (fun _ => by norm_num [randEx]) (fun _ => by norm_num [randEx]) 0 0
    (by decide) 0 le_rfl

/-- C9: if exactly one required named uniform is absent from the compiled
program, construction (`UpdateSystem::new` / `Render::new`) fails with the
`get_uniform` error, whose text contains the missing resource's name; and
`update` itself has no failure mode — for every input it completes normally
and returns the successor state (its Rust signature returns `()`, not
`Result`). -/
theorem missing_uniform_reported_by_name (lookup : String → Option Nat)
    (u : String) (hu : u ∈ updateSystemUniformNames)
    (hnone : lookup u = none)
    (hothers : ∀ v ∈ updateSystemUniformNames, v ≠ u → lookup v ≠ none)
    (lookup2 : String → Option Nat) (w : String)
    (hw : w ∈ renderUniformNames) (hnone2 : lookup2 w = none)
    (hothers2 : ∀ v ∈ renderUniformNames, v ≠ w → lookup2 v ≠ none)
    (dir : ℚ → Vec3) (noise : Nat → Nat → ℚ × ℚ × ℚ) (e : Emitter)
    (delta : ℚ) :
    updateSystemNew lookup =
      Except.error ("Could not get uniform location for \"" ++ u ++ "\"") ∧
    renderNew lookup2 =
      Except.error ("Could not get uniform location for \"" ++ w ++ "\"") ∧
    (updateEmitter dir noise e delta).generation = e.generation + 1 :=
  ⟨resolveUniforms_missing lookup _ u hu hnone hothers,
    resolveUniforms_missing lookup2 _ w hw hnone2 hothers2, rfl⟩

/-- C9 witness: a program missing exactly `u_Gravity` makes
`UpdateSystem::new` fail naming `u_Gravity`; one missing exactly `u_View`
makes `Render::new` fail naming `u_View`; a concrete update completes. -/
theorem missing_uniform_reported_by_name_witness :
    updateSystemNew (fun n => if n = "u_Gravity" then none else some 0) =
      Except.error
        ("Could not get uniform location for \"" ++ "u_Gravity" ++ "\"") ∧
    renderNew (fun n => if n = "u_View" then none else some 0) =
      Except.error
        ("Could not get uniform location for \"" ++ "u_View" ++ "\"") ∧
    (updateEmitter dirEx noiseEx (create_emitter oEx randEx) 1).generation =
      (create_emitter oEx randEx).generation + 1 :=
  missing_uniform_reported_by_name
    (fun n => if n = "u_Gravity" then none else some 0) "u_Gravity"
    (by decide) (by decide) (by decide)
    (fun n => if n = "u_View" then none else some 0) "u_View"
    (by decide) (by decide) (by decide)
    dirEx noiseEx (create_emitter oEx randEx) 1

end ParticleSim
